import Mathlib

set_option maxHeartbeats 1000000

/-!
Verification of the Chill music app.

The embedding covers the two parts of the repository that the claims are
about:

* the client-side playback orchestration in `src/public/script.js`
  (selection of a track or playlist, staging of the next track in
  `nextAudioInfo`, the TTS announcement hand-off, playlist advance with
  wraparound, and the error listeners of the two audio elements), and

* the server handlers in the Express app (`GET /api/tts` length check,
  and the well-formedness filters of `GET /api/search` and
  `GET /api/playlist`).

The client is event driven: every piece of its logic runs as the handler
of a discrete event (a click, a fetch response, or a media-element
`ended`/`error` signal).  It is embedded as a step function
`step : AppState → Event → AppState × List Act` where `AppState`
mirrors the mutable state of the script (the `currentPlaylist`,
`isTTSPlaying` and `nextAudioInfo` variables plus the observable state of
the two `<audio>` elements and the visible UI flags) and the returned
`Act` list records, in program order, the commands the handler issues
to the audio channels and the network requests it starts.
-/

/-- A playlist entry as the client holds it (`currentPlaylist.videos`
elements are `{id, title, duration}` objects; the `duration` field is never
read by the client logic, so it is omitted here). -/
structure Video where
  id : String
  title : String
deriving DecidableEq

/-- The staged track (`nextAudioInfo` in `script.js`): the data needed to
start the primary channel once the announcement finishes. -/
structure StagedTrack where
  audioUrl : String
  title : String
deriving DecidableEq

/-- `currentPlaylist` in `script.js`: `{title, videos, currentIndex}`. -/
structure Playlist where
  title : String
  videos : List Video
  currentIndex : Nat
deriving DecidableEq

/-- The body of a successful `/api/play` response:
`{audioUrl, title, durationSeconds}`.  An absent/empty `title` is modelled
by `""` (the JS code tests it with `data.title || title`, for which the
empty string is falsy). -/
structure PlayResponse where
  audioUrl : String
  title : String
  durationSeconds : Nat
deriving DecidableEq

/-- The mutable state of the client script: the three state variables
declared at the top of `script.js` plus the observable state of the two
audio elements and of the UI elements the handlers toggle. -/
structure AppState where
  currentPlaylist : Option Playlist
  isTTSPlaying : Bool
  nextAudioInfo : Option StagedTrack
  audioSrc : Option String
  audioPlaying : Bool
  ttsSrc : Option String
  ttsPlaying : Bool
  currentTrackText : String
  playerVisible : Bool
  loadingShown : Bool
  errorShown : Option String
  nextVisible : Bool
  nextEnabled : Bool
  playlistInfoVisible : Bool
deriving DecidableEq

/-- Commands a handler issues, in program order: channel commands on the
two audio elements and the network requests it starts. -/
inductive Act where
  | pausePrimary
  | pauseTts
  | loadPrimary (src : String)
  | playPrimary
  | loadTts (src : String)
  | playTts
  | fetchPlay (videoId fallbackTitle : String)
  | fetchPlaylistReq (playlistId : String)
deriving DecidableEq

/-- The discrete events the client script reacts to: user interactions,
fetch responses arriving, and the terminal signals of the two audio
elements.  A `resolveOk`/`resolveErr` event carries the video id and the
fallback title of the `fetchAndPrepareVideo` call whose response it is. -/
inductive Event where
  | selectVideo (id title : String)
  | selectPlaylist (id : String)
  | playlistOk (title : String) (videos : Option (List Video))
  | playlistErr (msg : String)
  | resolveOk (videoId fallbackTitle : String) (resp : PlayResponse)
  | resolveErr (videoId msg : String)
  | ttsEnded
  | ttsError
  | ttsPlayRejected
  | primaryEnded
  | primaryError (msg : String)
  | nextClick
deriving DecidableEq

/-- The TTS source URL built in `playTTS`
(`/api/tts?text=${encodeURIComponent(text)}`; the URI encoding is an
injective renaming and is modelled by the identity). -/
def ttsUrl (text : String) : String := "/api/tts?text=" ++ text

/-- The announcement template of `fetchAndPrepareVideo`
(`Changing now to ${nextAudioInfo.title}`). -/
def announcementText (title : String) : String := "Changing now to " ++ title

/-- The index update of `playNextTrackInPlaylist` (script.js lines
330-336): `currentIndex++`, wrapping to `0` when it would reach
`videos.length`. -/
def advanceIndex (len i : Nat) : Nat := if len ≤ i + 1 then 0 else i + 1

/-- `playMainAudio` (script.js lines 280-320): play the staged track on
the primary channel and consume it; when nothing is staged, hide the
player unless a playlist is active. -/
def playMainAudio (s : AppState) : AppState × List Act :=
  match s.nextAudioInfo with
  | none => (if s.currentPlaylist = none then { s with playerVisible := false } else s, [])
  | some t =>
      ({ s with currentTrackText := t.title
              , audioSrc := some t.audioUrl
              , audioPlaying := true
              , playerVisible := true
              , loadingShown := false
              , errorShown := none
              , nextAudioInfo := none },
       [Act.loadPrimary t.audioUrl, Act.playPrimary])

/-- `playTTS` (script.js lines 254-275): with empty text, fall through to
the staged track; otherwise pause the primary channel, then load and play
the announcement.  The rejection of the `play()` promise is delivered as
the separate `Event.ttsPlayRejected`. -/
def playTTS (s : AppState) (text : String) : AppState × List Act :=
  if text = "" then
    match s.nextAudioInfo with
    | some _ => playMainAudio s
    | none => (s, [])
  else
    ({ s with isTTSPlaying := true
            , audioPlaying := false
            , ttsSrc := some (ttsUrl text)
            , ttsPlaying := true },
     [Act.pausePrimary, Act.loadTts (ttsUrl text), Act.playTts])

/-- `playNextTrackInPlaylist` (script.js lines 326-357): advance the
index with wraparound and start fetching the item now under the cursor;
when the entry is missing or has an empty id, surface an error and leave
playlist mode.  No channel is paused here. -/
def playNextTrackInPlaylist (s : AppState) : AppState × List Act :=
  match s.currentPlaylist with
  | none => (s, [])
  | some p =>
      if p.videos.length = 0 then (s, [])
      else
        let i := advanceIndex p.videos.length p.currentIndex
        match p.videos.get? i with
        | some v =>
            if v.id ≠ "" then
              ({ s with currentPlaylist := some { p with currentIndex := i }
                      , loadingShown := true
                      , errorShown := none
                      , playlistInfoVisible := true
                      , nextEnabled := true },
               [Act.fetchPlay v.id v.title])
            else
              ({ s with errorShown := some "Error in playlist. Cannot play next track."
                      , loadingShown := false
                      , currentPlaylist := none
                      , playlistInfoVisible := false
                      , nextVisible := false
                      , nextEnabled := true }, [])
        | none =>
            ({ s with errorShown := some "Error in playlist. Cannot play next track."
                    , loadingShown := false
                    , currentPlaylist := none
                    , playlistInfoVisible := false
                    , nextVisible := false
                    , nextEnabled := true }, [])

/-- One event-handler execution of the client script. -/
def step (s : AppState) : Event → AppState × List Act
  | Event.selectVideo id title =>
      ({ s with currentPlaylist := none
              , playlistInfoVisible := false
              , nextVisible := false
              , nextEnabled := false
              , loadingShown := true
              , errorShown := none
              , currentTrackText := "Loading..."
              , audioSrc := none },
       [Act.fetchPlay id title])
  | Event.selectPlaylist id =>
      ({ s with currentPlaylist := none
              , playlistInfoVisible := false
              , nextVisible := false
              , nextEnabled := false
              , loadingShown := true
              , errorShown := none
              , currentTrackText := "Loading..."
              , audioSrc := none },
       [Act.fetchPlaylistReq id])
  | Event.playlistOk title vids =>
      match vids with
      | some (v :: rest) =>
          ({ s with currentPlaylist := some { title := title, videos := v :: rest, currentIndex := 0 }
                  , playlistInfoVisible := true
                  , nextVisible := true
                  , nextEnabled := true },
           [Act.fetchPlay v.id v.title])
      | _ =>
          ({ s with errorShown := some "Failed to load playlist: Playlist is empty or contains no valid videos."
                  , loadingShown := false
                  , currentPlaylist := none
                  , playlistInfoVisible := false
                  , nextVisible := false
                  , nextEnabled := false }, [])
  | Event.playlistErr msg =>
      ({ s with errorShown := some ("Failed to load playlist: " ++ msg)
              , loadingShown := false
              , currentPlaylist := none
              , playlistInfoVisible := false
              , nextVisible := false
              , nextEnabled := false }, [])
  | Event.resolveOk _ fallbackTitle resp =>
      let staged : StagedTrack :=
        { audioUrl := resp.audioUrl
        , title := if resp.title = "" then fallbackTitle else resp.title }
      let s1 := { s with nextAudioInfo := some staged }
      let s2 :=
        match s1.currentPlaylist with
        | some _ => { s1 with playlistInfoVisible := true }
        | none => { s1 with currentTrackText := staged.title, playerVisible := true }
      let r := playTTS s2 (announcementText staged.title)
      ({ r.1 with loadingShown := false }, r.2)
  | Event.resolveErr _ msg =>
      let s1 := { s with errorShown := some ("Failed to load track: " ++ msg)
                       , loadingShown := false
                       , nextAudioInfo := none }
      (if s1.currentPlaylist = none then { s1 with playerVisible := false } else s1, [])
  | Event.ttsEnded =>
      playMainAudio { s with ttsPlaying := false, isTTSPlaying := false }
  | Event.ttsError =>
      playMainAudio { s with ttsPlaying := false
                           , isTTSPlaying := false
                           , errorShown := some "TTS announcement failed. Playing track directly."
                           , loadingShown := false }
  | Event.ttsPlayRejected =>
      playMainAudio { s with ttsPlaying := false, isTTSPlaying := false }
  | Event.primaryEnded =>
      let s1 := { s with audioPlaying := false }
      match s1.currentPlaylist with
      | some _ => playNextTrackInPlaylist s1
      | none => ({ s1 with currentTrackText := "Finished" }, [])
  | Event.primaryError msg =>
      let s1 := { s with audioPlaying := false
                       , errorShown := some (msg ++ " Try another track.")
                       , loadingShown := false }
      match s1.currentPlaylist with
      | some _ => playNextTrackInPlaylist s1
      | none => ({ s1 with playerVisible := false }, [])
  | Event.nextClick => playNextTrackInPlaylist s

/-- Run a sequence of events, discarding the issued actions. -/
def run (s : AppState) (es : List Event) : AppState :=
  es.foldl (fun s e => (step s e).1) s

/-- The state right after the DOMContentLoaded handler finished its
initial setup (script.js lines 443-451). -/
def initState : AppState :=
  { currentPlaylist := none
  , isTTSPlaying := false
  , nextAudioInfo := none
  , audioSrc := none
  , audioPlaying := false
  , ttsSrc := none
  , ttsPlaying := false
  , currentTrackText := ""
  , playerVisible := false
  , loadingShown := false
  , errorShown := none
  , nextVisible := false
  , nextEnabled := false
  , playlistInfoVisible := false }

/-- The PlaylistState invariant of the spec: whenever a playlist is
present its item list is non-empty and the cursor is in range. -/
def playlistInv : Option Playlist → Prop
  | none => True
  | some p => p.videos ≠ [] ∧ p.currentIndex < p.videos.length

/-- Result of `GET /api/tts` (server, `src/unnamed/part_000` lines
184-213): a 400 for a missing text, a 400 for text longer than 200
characters, otherwise the gtts audio stream for the text. -/
inductive TtsResponse where
  | missingText
  | textTooLong
  | audioStream (text : String)
deriving DecidableEq

/-- The `GET /api/tts` handler.  `req.query.text` being absent or empty is
modelled by `""` (both are falsy for the `!text` guard). -/
def ttsHandler (text : String) : TtsResponse :=
  if text = "" then TtsResponse.missingText
  else if 200 < text.length then TtsResponse.textTooLong
  else TtsResponse.audioStream text

/-- A raw youtube-sr item, with the fields the server reads; every field
may be absent. -/
structure YTVideo where
  id : Option String
  title : Option String
  thumbnailUrl : Option String
  durationFormatted : Option String
deriving DecidableEq

/-- An entry of the `GET /api/search` response body. -/
structure SimpleResult where
  id : Option String
  title : Option String
  thumbnail : Option String
  duration : Option String
deriving DecidableEq

/-- An entry of the `videos` array of the `GET /api/playlist` response. -/
structure PlaylistVideoOut where
  id : Option String
  title : Option String
  duration : Option String
deriving DecidableEq

/-- JS truthiness of an optional string field: `undefined` and `""` are
falsy, every other string is truthy. -/
def truthyStr : Option String → Bool
  | none => false
  | some v => !(v == "")

/-- The `simplifiedResults` mapping of the search handler
(`src/unnamed/part_000` lines 43-50): map to the simple shape, then keep
only entries whose `id` and `title` are truthy. -/
def simplifiedResults (results : List YTVideo) : List SimpleResult :=
  (results.map fun item =>
    { id := item.id
    , title := item.title
    , thumbnail := item.thumbnailUrl
    , duration := item.durationFormatted }).filter
    fun item => truthyStr item.id && truthyStr item.title

/-- The `videos` mapping of the playlist handler (`src/unnamed/part_000`
lines 153-159). -/
def playlistVideos (vids : List YTVideo) : List PlaylistVideoOut :=
  (vids.map fun v =>
    { id := v.id
    , title := v.title
    , duration := v.durationFormatted }).filter
    fun v => truthyStr v.id && truthyStr v.title

/-- Trace for the stale-response counterexample: item A is selected, item
B is selected while A's `/api/play` request is still outstanding, then
A's (stale) response arrives. -/
def staleTrace : List Event :=
  [ Event.selectVideo "vidA" "Title A"
  , Event.selectVideo "vidB" "Title B"
  , Event.resolveOk "vidA" "Title A" { audioUrl := "https://cdn/a", title := "Song A", durationSeconds := 100 } ]

/-- Trace reaching a two-item playlist whose first item is playing on the
primary channel. -/
def playlistPlayingTrace : List Event :=
  [ Event.selectPlaylist "PL1"
  , Event.playlistOk "Chill" (some [ { id := "a", title := "A" }, { id := "b", title := "B" } ])
  , Event.resolveOk "a" "A" { audioUrl := "https://cdn/a", title := "Song A", durationSeconds := 100 }
  , Event.ttsEnded ]

/-- Trace reaching a two-item playlist whose first item's `/api/play`
request is still outstanding. -/
def playlistLoadingTrace : List Event :=
  [ Event.selectPlaylist "PL1"
  , Event.playlistOk "Chill" (some [ { id := "a", title := "A" }, { id := "b", title := "B" } ]) ]

/-- A state with a staged track and a playing announcement, as reached
after a successful resolve of a single-item selection. -/
def stagedState : AppState :=
  run initState
    [ Event.selectVideo "vidX" "Title X"
    , Event.resolveOk "vidX" "Title X" { audioUrl := "https://cdn/x", title := "Song X", durationSeconds := 90 } ]

/-! ## Basic lemmas about the index update and the announcement text -/

theorem advanceIndex_lt (len i : Nat) (h : 0 < len) : advanceIndex len i < len := by
  unfold advanceIndex
  split
  · exact h
  · omega

theorem advanceIndex_eq_mod (len i : Nat) (h : i < len) :
    advanceIndex len i = (i + 1) % len := by
  unfold advanceIndex
  split
  · have hlen : i + 1 = len := by omega
    rw [hlen, Nat.mod_self]
  · have hlt : i + 1 < len := by omega
    rw [Nat.mod_eq_of_lt hlt]

theorem iterate_advanceIndex (len : Nat) (k : Nat) :
    ∀ i, i < len → (advanceIndex len)^[k] i = (i + k) % len := by
  induction k with
  | zero =>
      intro i hi
      simp [Nat.mod_eq_of_lt hi]
  | succ k ih =>
      intro i hi
      rw [Function.iterate_succ_apply]
      have hlen : 0 < len := Nat.lt_of_le_of_lt (Nat.zero_le i) hi
      have h1 := ih (advanceIndex len i) (advanceIndex_lt len i hlen)
      rw [h1, advanceIndex_eq_mod len i hi, Nat.mod_add_mod]
      have : i + 1 + k = i + (k + 1) := by omega
      rw [this]

theorem announcementText_ne_empty (t : String) : announcementText t ≠ "" := by
  intro h
  unfold announcementText at h
  have h2 := congrArg String.length h
  rw [String.length_append] at h2
  simp [String.length_empty] at h2
  exact absurd h2.1 (by decide)

/-! ## Shape lemmas about the handler building blocks -/

theorem playMainAudio_playlist (s : AppState) :
    (playMainAudio s).1.currentPlaylist = s.currentPlaylist := by
  unfold playMainAudio
  rcases hs : s.nextAudioInfo with _ | t
  · simp only []
    split <;> rfl
  · rfl

theorem playTTS_playlist (s : AppState) (text : String) :
    (playTTS s text).1.currentPlaylist = s.currentPlaylist := by
  unfold playTTS
  split
  · rcases hs : s.nextAudioInfo with _ | t
    · rfl
    · exact playMainAudio_playlist s
  · rfl

theorem playMainAudio_acts (s : AppState) :
    (playMainAudio s).2 = [] ∨
      ∃ u, (playMainAudio s).2 = [Act.loadPrimary u, Act.playPrimary] := by
  unfold playMainAudio
  rcases hs : s.nextAudioInfo with _ | t
  · exact Or.inl rfl
  · exact Or.inr ⟨t.audioUrl, rfl⟩

theorem playTTS_acts (s : AppState) (text : String) :
    (playTTS s text).2 = [] ∨
      (∃ u, (playTTS s text).2 = [Act.loadPrimary u, Act.playPrimary]) ∨
      (playTTS s text).2 = [Act.pausePrimary, Act.loadTts (ttsUrl text), Act.playTts] := by
  unfold playTTS
  split
  · rcases hs : s.nextAudioInfo with _ | t
    · exact Or.inl rfl
    · rcases playMainAudio_acts s with h | ⟨u, h⟩
      · exact Or.inl h
      · exact Or.inr (Or.inl ⟨u, h⟩)
  · exact Or.inr (Or.inr rfl)

theorem playNext_acts (s : AppState) :
    (playNextTrackInPlaylist s).2 = [] ∨
      ∃ i t, (playNextTrackInPlaylist s).2 = [Act.fetchPlay i t] := by
  unfold playNextTrackInPlaylist
  rcases hs : s.currentPlaylist with _ | p
  · exact Or.inl rfl
  · simp only []
    split
    · exact Or.inl rfl
    · rcases hv : p.videos.get? (advanceIndex p.videos.length p.currentIndex) with _ | v
      · exact Or.inl rfl
      · simp only []
        split
        · exact Or.inr ⟨v.id, v.title, rfl⟩
        · exact Or.inl rfl

/-- What `playNextTrackInPlaylist` does with an active, well-formed
playlist: advance the cursor with wraparound and fetch the item now under
it; nothing else — in particular no channel is paused. -/
theorem playNext_advances (s : AppState) (p : Playlist)
    (hp : s.currentPlaylist = some p) (hn : p.videos ≠ [])
    (hid : ∀ v ∈ p.videos, v.id ≠ "") :
    (playNextTrackInPlaylist s).1.currentPlaylist
        = some { p with currentIndex := advanceIndex p.videos.length p.currentIndex }
      ∧ (∃ v, p.videos.get? (advanceIndex p.videos.length p.currentIndex) = some v ∧
          (playNextTrackInPlaylist s).2 = [Act.fetchPlay v.id v.title])
      ∧ (playNextTrackInPlaylist s).1.audioPlaying = s.audioPlaying
      ∧ (playNextTrackInPlaylist s).1.ttsPlaying = s.ttsPlaying
      ∧ (playNextTrackInPlaylist s).1.nextAudioInfo = s.nextAudioInfo := by
  have hlen : 0 < p.videos.length := List.length_pos.mpr hn
  have hi : advanceIndex p.videos.length p.currentIndex < p.videos.length :=
    advanceIndex_lt _ _ hlen
  obtain ⟨v, hv⟩ : ∃ v, p.videos.get? (advanceIndex p.videos.length p.currentIndex) = some v :=
    ⟨_, List.get?_eq_get hi⟩
  have hvid : v.id ≠ "" := hid v (List.get?_mem hv)
  unfold playNextTrackInPlaylist
  rw [hp]
  simp only [hv, if_neg (by omega : ¬ p.videos.length = 0), hvid, ite_true, ne_eq,
    not_false_eq_true, if_true]
  refine ⟨?_, ⟨v, ?_, ?_⟩, ?_, ?_, ?_⟩ <;> trivial

/-- What the `fetchAndPrepareVideo` success continuation does when the
`/api/play` response arrives: unconditionally stage the track described
by the response (preferring the response title over the fallback title)
and start the announcement, pausing the primary channel first.  There is
no freshness check of any kind. -/
theorem resolveOk_spec (s : AppState) (id fb : String) (resp : PlayResponse) :
    (step s (Event.resolveOk id fb resp)).1.nextAudioInfo
        = some { audioUrl := resp.audioUrl
               , title := if resp.title = "" then fb else resp.title }
      ∧ (step s (Event.resolveOk id fb resp)).1.currentPlaylist = s.currentPlaylist
      ∧ (step s (Event.resolveOk id fb resp)).2
        = [ Act.pausePrimary
          , Act.loadTts (ttsUrl (announcementText (if resp.title = "" then fb else resp.title)))
          , Act.playTts ] := by
  unfold step
  simp only []
  have hne := announcementText_ne_empty (if resp.title = "" then fb else resp.title)
  rcases hs : s.currentPlaylist with _ | p <;>
    simp only [hs, playTTS, if_neg hne] <;> refine ⟨?_, ?_, ?_⟩ <;> trivial

/-- The `nextClick` handler is exactly `playNextTrackInPlaylist`, and the
`primaryError` handler with an active playlist runs it after recording the
error; in both cases the cursor advances with wraparound and the item now
under it is fetched. -/
theorem step_advance_event (s : AppState) (p : Playlist) (e : Event)
    (he : e = Event.nextClick ∨ ∃ m, e = Event.primaryError m)
    (hp : s.currentPlaylist = some p) (hn : p.videos ≠ [])
    (hid : ∀ v ∈ p.videos, v.id ≠ "") :
    (step s e).1.currentPlaylist
        = some { p with currentIndex := advanceIndex p.videos.length p.currentIndex }
      ∧ ∃ v, p.videos.get? (advanceIndex p.videos.length p.currentIndex) = some v ∧
          (step s e).2 = [Act.fetchPlay v.id v.title] := by
  rcases he with rfl | ⟨m, rfl⟩
  · have h := playNext_advances s p hp hn hid
    exact ⟨h.1, h.2.1⟩
  · have hstep : step s (Event.primaryError m)
        = playNextTrackInPlaylist
            { s with audioPlaying := false
                   , errorShown := some (m ++ " Try another track.")
                   , loadingShown := false } := by
      unfold step
      simp only [hp]
    rw [hstep]
    have h := playNext_advances
      { s with audioPlaying := false
             , errorShown := some (m ++ " Try another track.")
             , loadingShown := false } p (by simp [hp]) hn hid
    exact ⟨h.1, h.2.1⟩

/-- Iterating an advance-triggering event (`nextClick` or `primaryError`)
`k` times from a well-formed playlist state leaves the playlist active,
with the cursor moved `k` positions forward modulo the playlist length. -/
theorem run_replicate_advance (e : Event)
    (he : e = Event.nextClick ∨ ∃ m, e = Event.primaryError m) :
    ∀ (k : Nat) (s : AppState) (p : Playlist),
      s.currentPlaylist = some p → p.videos ≠ [] →
      p.currentIndex < p.videos.length → (∀ v ∈ p.videos, v.id ≠ "") →
      (run s (List.replicate k e)).currentPlaylist
        = some { p with currentIndex := (p.currentIndex + k) % p.videos.length } := by
  intro k
  induction k with
  | zero =>
      intro s p hp _ hidx _
      rw [List.replicate]
      show s.currentPlaylist = _
      rw [hp, Nat.add_zero, Nat.mod_eq_of_lt hidx]
  | succ k ih =>
      intro s p hp hn hidx hid
      rw [List.replicate_succ]
      have hstep := step_advance_event s p e he hp hn hid
      have hrun : run s (e :: List.replicate k e) = run (step s e).1 (List.replicate k e) := rfl
      rw [hrun]
      have hlen : 0 < p.videos.length := List.length_pos.mpr hn
      have hi : advanceIndex p.videos.length p.currentIndex < p.videos.length :=
        advanceIndex_lt _ _ hlen
      have h2 := ih (step s e).1
        { p with currentIndex := advanceIndex p.videos.length p.currentIndex }
        hstep.1 hn hi hid
      rw [h2]
      have h3 : (advanceIndex p.videos.length p.currentIndex + k) % p.videos.length
          = (p.currentIndex + (k + 1)) % p.videos.length := by
        rw [advanceIndex_eq_mod _ _ hidx, Nat.mod_add_mod]
        have : p.currentIndex + 1 + k = p.currentIndex + (k + 1) := by omega
        rw [this]
      simp only [h3]

/-! ## Claim theorems -/

/-- C7: for every non-empty playlist of length `n`, advancing the cursor
exactly `n` times returns it to its original index — both for the pure
index update of `playNextTrackInPlaylist` (increment, wrapping to `0` at
the end, no natural end) and for `n` user-initiated next requests driven
through the full event handler. -/
theorem c7_wraparound (s : AppState) (p : Playlist)
    (hp : s.currentPlaylist = some p) (hn : p.videos ≠ [])
    (hidx : p.currentIndex < p.videos.length)
    (hid : ∀ v ∈ p.videos, v.id ≠ "") :
    (advanceIndex p.videos.length)^[p.videos.length] p.currentIndex = p.currentIndex
      ∧ (run s (List.replicate p.videos.length Event.nextClick)).currentPlaylist = some p := by
  constructor
  · rw [iterate_advanceIndex _ _ _ hidx, Nat.add_mod_right, Nat.mod_eq_of_lt hidx]
  · rw [run_replicate_advance Event.nextClick (Or.inl rfl) _ s p hp hn hidx hid,
      Nat.add_mod_right, Nat.mod_eq_of_lt hidx]

/-- Witness for C7 at a concrete two-item playlist. -/
theorem c7_wraparound_witness :
    (run initState playlistPlayingTrace).currentPlaylist
        = some { title := "Chill"
               , videos := [ { id := "a", title := "A" }, { id := "b", title := "B" } ]
               , currentIndex := 0 }
      ∧ (run (run initState playlistPlayingTrace)
          (List.replicate 2 Event.nextClick)).currentPlaylist
        = some { title := "Chill"
               , videos := [ { id := "a", title := "A" }, { id := "b", title := "B" } ]
               , currentIndex := 0 } := by
  have h := c7_wraparound (run initState playlistPlayingTrace)
    { title := "Chill"
    , videos := [ { id := "a", title := "A" }, { id := "b", title := "B" } ]
    , currentIndex := 0 }
    (by decide) (by decide) (by decide) (by decide)
  exact ⟨by decide, h.2⟩

/-- C2 (code evidence): with an active playlist, every primary-channel
`error` event advances the cursor (wrapping) and issues a new fetch, for
any number of consecutive failures `k` — in particular after `k = n`
failures (one full cycle with zero successes) the playlist is still
active and yet another fetch is issued.  The code never transitions to a
failed state and retries without bound. -/
theorem c2_unbounded_retry (s : AppState) (p : Playlist) (m : String) (k : Nat)
    (hp : s.currentPlaylist = some p) (hn : p.videos ≠ [])
    (hidx : p.currentIndex < p.videos.length)
    (hid : ∀ v ∈ p.videos, v.id ≠ "") :
    (run s (List.replicate k (Event.primaryError m))).currentPlaylist
        = some { p with currentIndex := (p.currentIndex + k) % p.videos.length }
      ∧ ∃ v : Video, (step (run s (List.replicate k (Event.primaryError m)))
          (Event.primaryError m)).2 = [Act.fetchPlay v.id v.title] := by
  have h1 := run_replicate_advance (Event.primaryError m) (Or.inr ⟨m, rfl⟩) k s p hp hn hidx hid
  refine ⟨h1, ?_⟩
  have hstep := step_advance_event (run s (List.replicate k (Event.primaryError m)))
    { p with currentIndex := (p.currentIndex + k) % p.videos.length }
    (Event.primaryError m) (Or.inr ⟨m, rfl⟩) h1 hn hid
  obtain ⟨v, _, hacts⟩ := hstep.2
  exact ⟨v, hacts⟩

/-- Witness for C2: a two-item playlist in which both items fail one full
cycle; the playlist is back at index 0, still active, and a new fetch is
issued on the next failure. -/
theorem c2_unbounded_retry_witness :
    (run (run initState playlistLoadingTrace)
        (List.replicate 2 (Event.primaryError "Audio decoding error."))).currentPlaylist
        = some { title := "Chill"
               , videos := [ { id := "a", title := "A" }, { id := "b", title := "B" } ]
               , currentIndex := 0 }
      ∧ ∃ v : Video, (step (run (run initState playlistLoadingTrace)
          (List.replicate 2 (Event.primaryError "Audio decoding error.")))
          (Event.primaryError "Audio decoding error.")).2 = [Act.fetchPlay v.id v.title] := by
  have h := c2_unbounded_retry (run initState playlistLoadingTrace)
    { title := "Chill"
    , videos := [ { id := "a", title := "A" }, { id := "b", title := "B" } ]
    , currentIndex := 0 }
    "Audio decoding error." 2 (by decide) (by decide) (by decide) (by decide)
  exact h

/-- C5 (amended): a user-initiated next request is honored iff a playlist
is active — with no playlist it is a strict no-op — and when honored it
advances the cursor with wraparound and fetches the next item; but it
does not silence either channel first: no pause command is issued and
both channels' playing state is untouched by the handler. -/
theorem c5_next_honored_iff (s : AppState) :
    (s.currentPlaylist = none → step s Event.nextClick = (s, []))
      ∧ ∀ (p : Playlist), s.currentPlaylist = some p → p.videos ≠ [] →
          (∀ v ∈ p.videos, v.id ≠ "") →
          (step s Event.nextClick).1.currentPlaylist
              = some { p with currentIndex := advanceIndex p.videos.length p.currentIndex }
            ∧ (∃ v, p.videos.get? (advanceIndex p.videos.length p.currentIndex) = some v ∧
                (step s Event.nextClick).2 = [Act.fetchPlay v.id v.title])
            ∧ (step s Event.nextClick).1.audioPlaying = s.audioPlaying
            ∧ (step s Event.nextClick).1.ttsPlaying = s.ttsPlaying
            ∧ Act.pausePrimary ∉ (step s Event.nextClick).2
            ∧ Act.pauseTts ∉ (step s Event.nextClick).2 := by
  constructor
  · intro h
    show playNextTrackInPlaylist s = (s, [])
    unfold playNextTrackInPlaylist
    rw [h]
  · intro p hp hn hid
    have h := playNext_advances s p hp hn hid
    obtain ⟨v, hv, hacts⟩ := h.2.1
    have hacts' : (step s Event.nextClick).2 = [Act.fetchPlay v.id v.title] := hacts
    refine ⟨h.1, ⟨v, hv, hacts'⟩, h.2.2.1, h.2.2.2.1, ?_, ?_⟩ <;> rw [hacts'] <;> simp

/-- Witness for C5 (amended): the no-op half at the initial state and the
advance half at a concrete playing playlist. -/
theorem c5_next_honored_iff_witness :
    initState.currentPlaylist = none
      ∧ step initState Event.nextClick = (initState, [])
      ∧ (step (run initState playlistPlayingTrace) Event.nextClick).1.currentPlaylist
        = some { title := "Chill"
               , videos := [ { id := "a", title := "A" }, { id := "b", title := "B" } ]
               , currentIndex := 1 } := by
  refine ⟨rfl, (c5_next_honored_iff initState).1 rfl, ?_⟩
  have h := ((c5_next_honored_iff (run initState playlistPlayingTrace)).2
    { title := "Chill"
    , videos := [ { id := "a", title := "A" }, { id := "b", title := "B" } ]
    , currentIndex := 0 }
    (by decide) (by decide) (by decide)).1
  exact h

/-- C5 (counterexample): from a reachable state in which the playlist's
first track is playing on the primary channel, a next click advances the
cursor and issues the fetch for the next item without pausing anything:
no pause command is issued and the primary channel is still playing after
the handler — the claim's "first silences both channels" does not hold. -/
theorem c5_counterexample :
    (run initState playlistPlayingTrace).currentPlaylist
        = some { title := "Chill"
               , videos := [ { id := "a", title := "A" }, { id := "b", title := "B" } ]
               , currentIndex := 0 }
      ∧ (run initState playlistPlayingTrace).audioPlaying = true
      ∧ (step (run initState playlistPlayingTrace) Event.nextClick).2
        = [Act.fetchPlay "b" "B"]
      ∧ Act.pausePrimary ∉ (step (run initState playlistPlayingTrace) Event.nextClick).2
      ∧ Act.pauseTts ∉ (step (run initState playlistPlayingTrace) Event.nextClick).2
      ∧ (step (run initState playlistPlayingTrace) Event.nextClick).1.audioPlaying = true := by
  decide

/-- C1 (counterexample): select item A, then item B while A's resolve is
still in flight; A's stale response then arrives (its request was issued
by the first selection) and is applied — it overwrites the staged track,
and on the announcement's end the primary channel plays A's stream URL,
not B's. -/
theorem c1_counterexample :
    (run initState staleTrace).nextAudioInfo
        = some { audioUrl := "https://cdn/a", title := "Song A" }
      ∧ (run initState (staleTrace ++ [Event.ttsEnded])).audioSrc = some "https://cdn/a"
      ∧ (run initState (staleTrace ++ [Event.ttsEnded])).audioPlaying = true := by
  decide

/-- C1 (amended): there is no selection token; whenever a resolve response
arrives, its track is staged unconditionally (the response title is
preferred, falling back to the search-result title), so the staged and
subsequently playing track is that of the last-arriving response, not
necessarily of the latest selection. -/
theorem c1_last_response_wins (s : AppState) (id fb : String) (resp : PlayResponse) :
    (step s (Event.resolveOk id fb resp)).1.nextAudioInfo
        = some { audioUrl := resp.audioUrl
               , title := if resp.title = "" then fb else resp.title }
      ∧ (step s (Event.resolveOk id fb resp)).1.currentPlaylist = s.currentPlaylist :=
  ⟨(resolveOk_spec s id fb resp).1, (resolveOk_spec s id fb resp).2.1⟩

/-- C3 (counterexample): with an active two-item playlist whose first
item's resolve fails, the handler surfaces the error and stops: the
cursor stays at index 0 and no recovery fetch is issued — the failed item
is not skipped automatically. -/
theorem c3_counterexample :
    (run initState playlistLoadingTrace).currentPlaylist
        = some { title := "Chill"
               , videos := [ { id := "a", title := "A" }, { id := "b", title := "B" } ]
               , currentIndex := 0 }
      ∧ (step (run initState playlistLoadingTrace)
          (Event.resolveErr "a" "Video is private, unavailable, or not found.")).1.currentPlaylist
        = some { title := "Chill"
               , videos := [ { id := "a", title := "A" }, { id := "b", title := "B" } ]
               , currentIndex := 0 }
      ∧ (step (run initState playlistLoadingTrace)
          (Event.resolveErr "a" "Video is private, unavailable, or not found.")).2 = [] := by
  decide

/-- C3 (amended): on a resolve failure the error is surfaced and the
staged track cleared, and nothing else happens: no fetch is started and
the playlist (when active) is left exactly where it was — playback halts
until the user intervenes.  Only without an active playlist is the player
additionally hidden. -/
theorem c3_resolve_failure_halts (s : AppState) (id m : String) :
    (step s (Event.resolveErr id m)).2 = []
      ∧ (step s (Event.resolveErr id m)).1.currentPlaylist = s.currentPlaylist
      ∧ (step s (Event.resolveErr id m)).1.nextAudioInfo = none
      ∧ (step s (Event.resolveErr id m)).1.errorShown = some ("Failed to load track: " ++ m)
      ∧ (s.currentPlaylist = none → (step s (Event.resolveErr id m)).1.playerVisible = false)
      ∧ (s.currentPlaylist ≠ none →
          (step s (Event.resolveErr id m)).1.playerVisible = s.playerVisible) := by
  unfold step
  rcases hs : s.currentPlaylist with _ | p <;> simp [hs]

/-- Witness for C3 (amended) at the initial state (no playlist) and at a
loaded playlist state. -/
theorem c3_resolve_failure_halts_witness :
    initState.currentPlaylist = none
      ∧ (step initState (Event.resolveErr "v" "boom")).1.playerVisible = false
      ∧ (run initState playlistLoadingTrace).currentPlaylist ≠ none
      ∧ (step (run initState playlistLoadingTrace) (Event.resolveErr "a" "boom")).1.playerVisible
        = (run initState playlistLoadingTrace).playerVisible := by
  refine ⟨rfl, (c3_resolve_failure_halts initState "v" "boom").2.2.2.2.1 rfl, by decide, ?_⟩
  exact (c3_resolve_failure_halts (run initState playlistLoadingTrace) "a" "boom").2.2.2.2.2
    (by decide)

/-- C4: when a track is staged, a failure of the announcement — the TTS
element's `error` event or a rejected `play()` promise — leads to exactly
the same state and channel commands as a normally ended announcement: the
staged track is loaded and played on the primary channel and consumed.
Announcement failure is never fatal and never blocks primary playback. -/
theorem c4_announcement_best_effort (s : AppState) (t : StagedTrack)
    (h : s.nextAudioInfo = some t) :
    (step s Event.ttsError).1 = (step s Event.ttsEnded).1
      ∧ (step s Event.ttsError).2 = (step s Event.ttsEnded).2
      ∧ (step s Event.ttsPlayRejected).1 = (step s Event.ttsEnded).1
      ∧ (step s Event.ttsPlayRejected).2 = (step s Event.ttsEnded).2
      ∧ (step s Event.ttsEnded).1.audioSrc = some t.audioUrl
      ∧ (step s Event.ttsEnded).1.audioPlaying = true
      ∧ (step s Event.ttsEnded).1.nextAudioInfo = none
      ∧ Act.playPrimary ∈ (step s Event.ttsEnded).2 := by
  unfold step playMainAudio
  simp [h]

/-- Witness for C4 at a reachable state with a staged track. -/
theorem c4_announcement_best_effort_witness :
    stagedState.nextAudioInfo = some { audioUrl := "https://cdn/x", title := "Song X" }
      ∧ (step stagedState Event.ttsError).1 = (step stagedState Event.ttsEnded).1
      ∧ (step stagedState Event.ttsEnded).1.audioSrc = some "https://cdn/x"
      ∧ Act.playPrimary ∈ (step stagedState Event.ttsEnded).2 := by
  have h := c4_announcement_best_effort stagedState
    { audioUrl := "https://cdn/x", title := "Song X" } (by decide)
  exact ⟨by decide, h.1, h.2.2.2.2.1, h.2.2.2.2.2.2.2⟩

/-- C6 (amended): a primary-channel play command is only ever issued by
the handlers of the announcement channel's terminal signals (`ended`,
`error`, or the rejected `play()` promise), so the announcement's
terminal signal strictly precedes the primary `load`/`play` of the same
track; and when the announcement is started the primary channel is paused
first.  The announcement channel itself, however, is never paused by any
handler. -/
theorem c6_announcement_precedes_primary :
    (∀ (s : AppState) (e : Event), Act.playPrimary ∈ (step s e).2 →
        e = Event.ttsEnded ∨ e = Event.ttsError ∨ e = Event.ttsPlayRejected)
      ∧ (∀ (s : AppState) (e : Event), Act.pauseTts ∉ (step s e).2)
      ∧ (∀ (s : AppState) (id fb : String) (resp : PlayResponse),
          (step s (Event.resolveOk id fb resp)).2
            = [ Act.pausePrimary
              , Act.loadTts (ttsUrl (announcementText (if resp.title = "" then fb else resp.title)))
              , Act.playTts ]) := by
  refine ⟨?_, ?_, fun s id fb resp => (resolveOk_spec s id fb resp).2.2⟩
  · intro s e h
    cases e with
    | ttsEnded => exact Or.inl rfl
    | ttsError => exact Or.inr (Or.inl rfl)
    | ttsPlayRejected => exact Or.inr (Or.inr rfl)
    | selectVideo id title => simp [step] at h
    | selectPlaylist id => simp [step] at h
    | playlistErr m => simp [step] at h
    | resolveErr id m => simp [step] at h
    | resolveOk id fb resp =>
        rw [(resolveOk_spec s id fb resp).2.2] at h
        simp at h
    | playlistOk title vids =>
        rcases vids with _ | vs
        · simp [step] at h
        · rcases vs with _ | ⟨v, rest⟩
          · simp [step] at h
          · simp [step] at h
    | primaryEnded =>
        rcases hs : s.currentPlaylist with _ | p
        · simp [step, hs] at h
        · have hh : Act.playPrimary
              ∈ (playNextTrackInPlaylist { s with audioPlaying := false }).2 := by
            have heq : (step s Event.primaryEnded).2
                = (playNextTrackInPlaylist { s with audioPlaying := false }).2 := by
              unfold step
              simp [hs]
            rw [heq] at h
            exact h
          rcases playNext_acts { s with audioPlaying := false } with h2 | ⟨i, t, h2⟩ <;>
            rw [h2] at hh <;> simp at hh
    | primaryError m =>
        rcases hs : s.currentPlaylist with _ | p
        · simp [step, hs] at h
        · have hh : Act.playPrimary
              ∈ (playNextTrackInPlaylist
                  { s with audioPlaying := false
                         , errorShown := some (m ++ " Try another track.")
                         , loadingShown := false }).2 := by
            have heq : (step s (Event.primaryError m)).2
                = (playNextTrackInPlaylist
                    { s with audioPlaying := false
                           , errorShown := some (m ++ " Try another track.")
                           , loadingShown := false }).2 := by
              unfold step
              simp [hs]
            rw [heq] at h
            exact h
          rcases playNext_acts
              { s with audioPlaying := false
                     , errorShown := some (m ++ " Try another track.")
                     , loadingShown := false } with h2 | ⟨i, t, h2⟩ <;>
            rw [h2] at hh <;> simp at hh
    | nextClick =>
        have hh : Act.playPrimary ∈ (playNextTrackInPlaylist s).2 := h
        rcases playNext_acts s with h2 | ⟨i, t, h2⟩ <;> rw [h2] at hh <;> simp at hh
  · intro s e
    cases e with
    | selectVideo id title => simp [step]
    | selectPlaylist id => simp [step]
    | playlistErr m => simp [step]
    | resolveErr id m => simp [step]
    | resolveOk id fb resp =>
        rw [(resolveOk_spec s id fb resp).2.2]
        simp
    | playlistOk title vids =>
        rcases vids with _ | vs
        · simp [step]
        · rcases vs with _ | ⟨v, rest⟩
          · simp [step]
          · simp [step]
    | ttsEnded =>
        show Act.pauseTts ∉ (playMainAudio { s with ttsPlaying := false, isTTSPlaying := false }).2
        rcases playMainAudio_acts { s with ttsPlaying := false, isTTSPlaying := false } with
          h2 | ⟨u, h2⟩ <;> rw [h2] <;> simp
    | ttsError =>
        show Act.pauseTts ∉ (playMainAudio
          { s with ttsPlaying := false
                 , isTTSPlaying := false
                 , errorShown := some "TTS announcement failed. Playing track directly."
                 , loadingShown := false }).2
        rcases playMainAudio_acts
            { s with ttsPlaying := false
                   , isTTSPlaying := false
                   , errorShown := some "TTS announcement failed. Playing track directly."
                   , loadingShown := false } with h2 | ⟨u, h2⟩ <;> rw [h2] <;> simp
    | ttsPlayRejected =>
        show Act.pauseTts ∉ (playMainAudio { s with ttsPlaying := false, isTTSPlaying := false }).2
        rcases playMainAudio_acts { s with ttsPlaying := false, isTTSPlaying := false } with
          h2 | ⟨u, h2⟩ <;> rw [h2] <;> simp
    | primaryEnded =>
        rcases hs : s.currentPlaylist with _ | p
        · simp [step, hs]
        · have heq : (step s Event.primaryEnded).2
              = (playNextTrackInPlaylist { s with audioPlaying := false }).2 := by
            unfold step
            simp [hs]
          rw [heq]
          rcases playNext_acts { s with audioPlaying := false } with h2 | ⟨i, t, h2⟩ <;>
            rw [h2] <;> simp
    | primaryError m =>
        rcases hs : s.currentPlaylist with _ | p
        · simp [step, hs]
        · have heq : (step s (Event.primaryError m)).2
              = (playNextTrackInPlaylist
                  { s with audioPlaying := false
                         , errorShown := some (m ++ " Try another track.")
                         , loadingShown := false }).2 := by
            unfold step
            simp [hs]
          rw [heq]
          rcases playNext_acts
              { s with audioPlaying := false
                     , errorShown := some (m ++ " Try another track.")
                     , loadingShown := false } with h2 | ⟨i, t, h2⟩ <;>
            rw [h2] <;> simp
    | nextClick =>
        show Act.pauseTts ∉ (playNextTrackInPlaylist s).2
        rcases playNext_acts s with h2 | ⟨i, t, h2⟩ <;> rw [h2] <;> simp

/-- Witness for C6 (amended). -/
theorem c6_announcement_precedes_primary_witness :
    Act.playPrimary ∈ (step stagedState Event.ttsEnded).2
      ∧ (Event.ttsEnded = Event.ttsEnded ∨ Event.ttsEnded = Event.ttsError
          ∨ Event.ttsEnded = Event.ttsPlayRejected)
      ∧ Act.pauseTts ∉ (step initState Event.ttsEnded).2 := by
  refine ⟨by decide, ?_, c6_announcement_precedes_primary.2.1 initState Event.ttsEnded⟩
  exact c6_announcement_precedes_primary.1 stagedState Event.ttsEnded (by decide)

/-- C6 (counterexample): in a reachable state with a staged track, the
announcement's `ended` handler activates the primary channel without
pausing the announcement channel first — no pause command for the
announcement channel is issued, refuting "the channel not supposed to be
active is paused before the other is activated" for this direction. -/
theorem c6_counterexample :
    stagedState.nextAudioInfo = some { audioUrl := "https://cdn/x", title := "Song X" }
      ∧ Act.playPrimary ∈ (step stagedState Event.ttsEnded).2
      ∧ Act.pauseTts ∉ (step stagedState Event.ttsEnded).2
      ∧ (step stagedState Event.ttsEnded).1.audioPlaying = true := by
  decide

/-- The `resolveErr` handler never changes the playlist. -/
theorem resolveErr_playlist (s : AppState) (id m : String) :
    (step s (Event.resolveErr id m)).1.currentPlaylist = s.currentPlaylist := by
  unfold step
  rcases hs : s.currentPlaylist with _ | p <;> simp [hs]

/-- `playNextTrackInPlaylist` preserves the playlist invariant. -/
theorem playNext_inv (s : AppState) (h : playlistInv s.currentPlaylist) :
    playlistInv (playNextTrackInPlaylist s).1.currentPlaylist := by
  unfold playNextTrackInPlaylist
  rcases hs : s.currentPlaylist with _ | p
  · simpa [hs] using h
  · rw [hs] at h
    obtain ⟨hn, _⟩ := h
    have hlen : 0 < p.videos.length := List.length_pos.mpr hn
    simp only [if_neg (by omega : ¬ p.videos.length = 0)]
    rcases hv : p.videos.get? (advanceIndex p.videos.length p.currentIndex) with _ | v
    · simp only [hv]
      trivial
    · simp only [hv]
      split
    
      · exact ⟨hn, advanceIndex_lt _ _ hlen⟩
      · trivial

/-- C8: the PlaylistState invariant — items non-empty and
`currentIndex < items.length` — holds initially (no playlist) and is
preserved by every event handler; a playlist response with an absent or
empty video list is rejected with an error and never constructs a
playlist. -/
theorem c8_playlist_invariant :
    playlistInv initState.currentPlaylist
      ∧ (∀ (s : AppState) (e : Event), playlistInv s.currentPlaylist →
          playlistInv ((step s e).1).currentPlaylist)
      ∧ (∀ (s : AppState) (t : String),
          ((step s (Event.playlistOk t none)).1).currentPlaylist = none
            ∧ ((step s (Event.playlistOk t none)).1).errorShown
              = some "Failed to load playlist: Playlist is empty or contains no valid videos.")
      ∧ (∀ (s : AppState) (t : String),
          ((step s (Event.playlistOk t (some []))).1).currentPlaylist = none
            ∧ ((step s (Event.playlistOk t (some []))).1).errorShown
              = some "Failed to load playlist: Playlist is empty or contains no valid videos.") := by
  refine ⟨trivial, ?_, fun s t => ⟨rfl, rfl⟩, fun s t => ⟨rfl, rfl⟩⟩
  intro s e h
  cases e with
  | selectVideo id title => trivial
  | selectPlaylist id => trivial
  | playlistErr m => trivial
  | playlistOk t vids =>
      rcases vids with _ | vs
      · trivial
      · rcases vs with _ | ⟨v, rest⟩
        · trivial
        · exact ⟨List.cons_ne_nil v rest, by simp⟩
  | resolveOk id fb resp =>
      rw [(resolveOk_spec s id fb resp).2.1]
      exact h
  | resolveErr id m =>
      rw [resolveErr_playlist s id m]
      exact h
  | ttsEnded =>
      show playlistInv
        (playMainAudio { s with ttsPlaying := false, isTTSPlaying := false }).1.currentPlaylist
      rw [playMainAudio_playlist]
      exact h
  | ttsError =>
      show playlistInv
        (playMainAudio
          { s with ttsPlaying := false
                 , isTTSPlaying := false
                 , errorShown := some "TTS announcement failed. Playing track directly."
                 , loadingShown := false }).1.currentPlaylist
      rw [playMainAudio_playlist]
      exact h
  | ttsPlayRejected =>
      show playlistInv
        (playMainAudio { s with ttsPlaying := false, isTTSPlaying := false }).1.currentPlaylist
      rw [playMainAudio_playlist]
      exact h
  | primaryEnded =>
      rcases hs : s.currentPlaylist with _ | p
      · have heq : (step s Event.primaryEnded).1.currentPlaylist = none := by
          unfold step
          simp [hs]
        rw [heq]
        trivial
      · have heq : step s Event.primaryEnded
            = playNextTrackInPlaylist { s with audioPlaying := false } := by
          unfold step
          simp [hs]
        rw [heq]
        exact playNext_inv _ (by simpa [hs] using h)
  | primaryError m =>
      rcases hs : s.currentPlaylist with _ | p
      · have heq : (step s (Event.primaryError m)).1.currentPlaylist = none := by
          unfold step
          simp [hs]
        rw [heq]
        trivial
      · have heq : step s (Event.primaryError m)
            = playNextTrackInPlaylist
                { s with audioPlaying := false
                       , errorShown := some (m ++ " Try another track.")
                       , loadingShown := false } := by
          unfold step
          simp [hs]
        rw [heq]
        exact playNext_inv _ (by simpa [hs] using h)
  | nextClick => exact playNext_inv s h

/-- Witness for C8: the invariant holds at the initial state and is
preserved by a concrete step that constructs a playlist. -/
theorem c8_playlist_invariant_witness :
    playlistInv initState.currentPlaylist
      ∧ playlistInv ((step initState
          (Event.playlistOk "Chill"
            (some [ { id := "a", title := "A" }, { id := "b", title := "B" } ]))).1).currentPlaylist := by
  refine ⟨trivial, ?_⟩
  exact c8_playlist_invariant.2.1 initState
    (Event.playlistOk "Chill"
      (some [ { id := "a", title := "A" }, { id := "b", title := "B" } ])) trivial

/-- C9: the `GET /api/tts` handler fails with the length error exactly
when the text is longer than 200 characters, fails with the
missing-parameter error when the text is empty (that check comes first,
before any synthesis work), and otherwise returns the audio stream for
the text. -/
theorem c9_tts_length_check (text : String) :
    (ttsHandler text = TtsResponse.textTooLong ↔ 200 < text.length)
      ∧ (text = "" → ttsHandler text = TtsResponse.missingText)
      ∧ (text ≠ "" → text.length ≤ 200 → ttsHandler text = TtsResponse.audioStream text) := by
  by_cases h0 : text = ""
  · subst h0
    refine ⟨?_, fun _ => rfl, fun h _ => absurd rfl h⟩
    simp [ttsHandler]
  · by_cases h1 : 200 < text.length
    · refine ⟨?_, fun h => absurd h h0, fun _ h => by omega⟩
      simp [ttsHandler, h0, h1]
    · refine ⟨?_, fun h => absurd h h0, fun _ _ => by simp [ttsHandler, h0, h1]⟩
      simp [ttsHandler, h0, h1]

/-- Witness for C9 at a short non-empty text. -/
theorem c9_tts_length_check_witness :
    ("hello" : String) ≠ ""
      ∧ ("hello" : String).length ≤ 200
      ∧ ttsHandler "hello" = TtsResponse.audioStream "hello" :=
  ⟨by decide, by decide, (c9_tts_length_check "hello").2.2 (by decide) (by decide)⟩

/-- C10: every entry of the search response and of the playlist-listing
response has a present, non-empty id and a present, non-empty title;
entries missing either field are filtered out. -/
theorem c10_output_wellformed :
    (∀ (rs : List YTVideo) (item : SimpleResult), item ∈ simplifiedResults rs →
        (∃ v, item.id = some v ∧ v ≠ "") ∧ (∃ v, item.title = some v ∧ v ≠ ""))
      ∧ (∀ (vs : List YTVideo) (pv : PlaylistVideoOut), pv ∈ playlistVideos vs →
        (∃ v, pv.id = some v ∧ v ≠ "") ∧ (∃ v, pv.title = some v ∧ v ≠ "")) := by
  constructor
  · intro rs item hmem
    have h := (List.mem_filter.mp hmem).2
    simp only [Bool.and_eq_true] at h
    obtain ⟨h1, h2⟩ := h
    constructor
    · rcases hv : item.id with _ | v
      · rw [hv] at h1
        exact absurd h1 (by simp [truthyStr])
      · rw [hv] at h1
        exact ⟨v, rfl, by simpa [truthyStr] using h1⟩
    · rcases hv : item.title with _ | v
      · rw [hv] at h2
        exact absurd h2 (by simp [truthyStr])
      · rw [hv] at h2
        exact ⟨v, rfl, by simpa [truthyStr] using h2⟩
  · intro vs pv hmem
    have h := (List.mem_filter.mp hmem).2
    simp only [Bool.and_eq_true] at h
    obtain ⟨h1, h2⟩ := h
    constructor
    · rcases hv : pv.id with _ | v
      · rw [hv] at h1
        exact absurd h1 (by simp [truthyStr])
      · rw [hv] at h1
        exact ⟨v, rfl, by simpa [truthyStr] using h1⟩
    · rcases hv : pv.title with _ | v
      · rw [hv] at h2
        exact absurd h2 (by simp [truthyStr])
      · rw [hv] at h2
        exact ⟨v, rfl, by simpa [truthyStr] using h2⟩

/-- Witness for C10 at a concrete result list in which one raw entry is
complete and one lacks a title. -/
theorem c10_output_wellformed_witness :
    ({ id := some "v1", title := some "Song", thumbnail := some "t", duration := some "3:00" }
        : SimpleResult)
      ∈ simplifiedResults
          [ { id := some "v1", title := some "Song"
            , thumbnailUrl := some "t", durationFormatted := some "3:00" }
          , { id := some "v2", title := none
            , thumbnailUrl := none, durationFormatted := none } ]
      ∧ (∃ v, (some "v1" : Option String) = some v ∧ v ≠ "") := by
  refine ⟨by decide, ?_⟩
  exact (c10_output_wellformed.1
    [ { id := some "v1", title := some "Song"
      , thumbnailUrl := some "t", durationFormatted := some "3:00" }
    , { id := some "v2", title := none
      , thumbnailUrl := none, durationFormatted := none } ]
    { id := some "v1", title := some "Song", thumbnail := some "t", duration := some "3:00" }
    (by decide)).1
